import Mathlib

/-!
Verification of the orderbook-viewer ingestion core against its specification.

The development shallowly embeds the TypeScript source:

* `generateMockOrderbook` / `getMockOrderbookForVenue` (src/hooks/use-mock-data.ts,
  first document): the synthetic data generator.  `Math.random()` draws are
  modelled as an explicit stream `rand : ℕ → ℚ` consumed in call order, with the
  contract `0 ≤ rand n < 1`.  JS numbers are modelled as exact rationals.
* `calculateOrderMetrics` (useOrderSimulation): the order impact estimator.
* `formatSymbolForVenue`: venue symbol translation; JS `String.replace` with a
  string pattern replaces only the first occurrence, which `replaceFirst` models.
* `parseOrderbookData`: the per-venue message parser.  Raw `JSON.parse` results
  (and the JS values the handlers manipulate) are modelled by `JsVal`; a thrown
  exception inside the handler's try block is modelled by `Option.none`, which the
  surrounding catch turns into the `null` result, so the embedded parser returns
  `Option` and total-function-ness models "never throws".
* the connection supervisor of `connectToVenue`: a labelled transition system
  `stepE` over `ConnState`, with timer slots holding their delay in milliseconds
  and events for transport open/close/error, timer firings and (re)construction.

JS coercion corners that no claim exercises are approximated and commented where
they occur (ToNumber/parseFloat of arrays and objects, numeric exponent formats).
-/

set_option allowUnsafeReducibility true in
attribute [semireducible] Rat.add Rat.mul Rat.sub Rat.div Rat.neg Rat.inv Rat.ofScientific

namespace OBView

/-- JS runtime values as the message handlers see them (post `JSON.parse`,
plus the non-JSON values `undefined` and `NaN` that JS coercions produce). -/
inductive JsVal where
  | null
  | undefined
  | nan
  | bool (b : Bool)
  | num (x : ℚ)
  | str (s : String)
  | arr (elems : List JsVal)
  | obj (fields : List (String × JsVal))

/-- JS truthiness of a value. -/
def truthy : JsVal → Bool
  | .null => false
  | .undefined => false
  | .nan => false
  | .bool b => b
  | .num x => decide (x ≠ 0)
  | .str s => decide (s ≠ "")
  | .arr _ => true
  | .obj _ => true

/-- Field lookup in an object literal (fields assumed distinct, as produced by
`JSON.parse`); a missing field reads as `undefined`. -/
def lookupField : List (String × JsVal) → String → JsVal
  | [], _ => .undefined
  | (k, v) :: rest, key => if k = key then v else lookupField rest key

/-- JS property access `v.key`: throws (`none`) on `null`/`undefined`, reads
`undefined` on non-objects, looks up the field on objects. -/
def getField : JsVal → String → Option JsVal
  | .null, _ => none
  | .undefined, _ => none
  | .obj fields, key => some (lookupField fields key)
  | _, _ => some .undefined

/-- JS index read `xs[0]` on a known array. -/
def index0 : List JsVal → JsVal
  | [] => .undefined
  | v :: _ => v

/-- Calling an array method (`.map`, `.filter`) requires an actual array;
anything else throws (`none`). -/
def asArr : JsVal → Option (List JsVal)
  | .arr elems => some elems
  | _ => none

/-- A one-character JS string. -/
def strChar (c : Char) : JsVal := .str (String.mk [c])

/-- JS destructuring `[a, b] = v`: arrays and strings are iterable (missing
positions read `undefined`), everything else throws (`none`). -/
def destructure2 : JsVal → Option (JsVal × JsVal)
  | .arr [] => some (.undefined, .undefined)
  | .arr [a] => some (a, .undefined)
  | .arr (a :: b :: _) => some (a, b)
  | .str s =>
      match s.data with
      | [] => some (.undefined, .undefined)
      | [c] => some (strChar c, .undefined)
      | c :: d :: _ => some (strChar c, strChar d)
  | _ => none

/-- Numeric value of a decimal digit character. -/
def digitVal (c : Char) : ℕ := c.toNat - Char.toNat '0'

/-- Value of a digit run read as a natural number. -/
def natOfDigits : List Char → ℕ := List.foldl (fun acc c => acc * 10 + digitVal c) 0

/-- Value of a digit run read as a fractional part (digits after the point). -/
def fracOfDigits : List Char → ℚ := List.foldr (fun c acc => ((digitVal c : ℚ) + acc) / 10) 0

/-- Longest decimal-literal prefix `digits[.digits]` (exponents and other JS
number formats are not produced by the feeds and are not modelled). -/
def parseDecimalPrefix (s : List Char) : Option ℚ :=
  let intPart := s.takeWhile Char.isDigit
  let rest := s.dropWhile Char.isDigit
  let fracPart :=
    match rest with
    | '.' :: r => r.takeWhile Char.isDigit
    | _ => []
  if intPart.isEmpty && fracPart.isEmpty then none
  else some ((natOfDigits intPart : ℚ) + fracOfDigits fracPart)

/-- Signed decimal prefix. -/
def parseSignedPrefix (s : List Char) : Option ℚ :=
  match s with
  | '-' :: r => (parseDecimalPrefix r).map (fun x => -x)
  | '+' :: r => parseDecimalPrefix r
  | _ => parseDecimalPrefix s

/-- `Number.parseFloat` on a string: skip leading spaces, parse the longest
signed decimal prefix, `NaN` (`none`) when no digits are found. -/
def jsParseFloat (s : String) : Option ℚ :=
  parseSignedPrefix (s.data.dropWhile (fun c => c = ' '))

/-- `Number.parseFloat` applied to an arbitrary JS value: the argument is
stringified first, so numbers round-trip and most non-strings give `NaN`
(arrays and objects are approximated as `NaN`; the feeds never send them as
level components). -/
def parseFloatJs : JsVal → JsVal
  | .str s =>
      match jsParseFloat s with
      | some x => .num x
      | none => .nan
  | .num x => .num x
  | _ => .nan

/-- Full-string decimal parse used by JS `ToNumber` on strings. -/
def parseDecimalFull (s : List Char) : Option ℚ :=
  let intPart := s.takeWhile Char.isDigit
  let rest := s.dropWhile Char.isDigit
  match rest with
  | [] => if intPart.isEmpty then none else some (natOfDigits intPart : ℚ)
  | '.' :: r =>
      let fracPart := r.takeWhile Char.isDigit
      if (r.dropWhile Char.isDigit).isEmpty && !(intPart.isEmpty && fracPart.isEmpty)
      then some ((natOfDigits intPart : ℚ) + fracOfDigits fracPart)
      else none
  | _ => none

/-- JS `ToNumber` on a string: trimmed, empty is `0`, otherwise a full signed
decimal literal; anything else is `NaN` (`none`). -/
def strToNumber (s : String) : Option ℚ :=
  let t := ((s.data.dropWhile (fun c => c = ' ')).reverse.dropWhile (fun c => c = ' ')).reverse
  if t.isEmpty then some 0
  else
    match t with
    | '-' :: r => (parseDecimalFull r).map (fun x => -x)
    | '+' :: r => parseDecimalFull r
    | _ => parseDecimalFull t

/-- JS `ToNumber`, as used by the relational comparison `v > 0`; `none` stands
for `NaN` (arrays and objects are approximated as `NaN`). -/
def jsToNumber : JsVal → Option ℚ
  | .null => some 0
  | .undefined => none
  | .nan => none
  | .bool b => some (if b then 1 else 0)
  | .num x => some x
  | .str s => strToNumber s
  | .arr _ => none
  | .obj _ => none

/-- The JS comparison `v > 0` (false on `NaN`). -/
def jsGtZero (v : JsVal) : Bool :=
  match jsToNumber v with
  | some x => decide (0 < x)
  | none => false

/-- JS `String.replace` with a string pattern: replace the first occurrence
only, returning the input unchanged when the pattern does not occur
(char-list worker). -/
def replaceFirstL (pat rep : List Char) : List Char → List Char
  | [] => if pat.isEmpty then rep else []
  | c :: rest =>
      if List.isPrefixOf pat (c :: rest) then rep ++ (c :: rest).drop pat.length
      else c :: replaceFirstL pat rep rest

/-- JS `s.replace(pat, rep)` for string patterns (first occurrence only). -/
def replaceFirst (s pat rep : String) : String :=
  String.mk (replaceFirstL pat.data rep.data s.data)

/-- Substring test, modelling JS `String.includes`. -/
def containsSub (pat : List Char) : List Char → Bool
  | [] => List.isPrefixOf pat []
  | c :: rest => List.isPrefixOf pat (c :: rest) || containsSub pat rest

/-- Supported exchanges (src/types/trading.ts `Venue`). -/
inductive Venue where
  | OKX
  | Bybit
  | Deribit
deriving DecidableEq

/-- The venue's runtime string value. -/
def venueName : Venue → String
  | .OKX => "OKX"
  | .Bybit => "Bybit"
  | .Deribit => "Deribit"

/-- Connection states (src/types/trading.ts `ConnectionStatus`). -/
inductive ConnectionStatus where
  | connected
  | connecting
  | disconnected
  | error
deriving DecidableEq

/-- Members of the `Symbol` union type (src/types/trading.ts). -/
def symbolValues : List String := ["BTC-USD", "ETH-USD", "BTC-USDT", "ETH-USDT"]

/-- Normalized orderbook snapshot with numeric levels (src/types/trading.ts
`Orderbook`); `timestamp` is the `Date.now()` value passed in by the caller. -/
structure Orderbook where
  bids : List (ℚ × ℚ)
  asks : List (ℚ × ℚ)
  timestamp : ℕ
deriving DecidableEq

/-- Order types (src/types/trading.ts `OrderType`). -/
inductive OrderType where
  | market
  | limit
deriving DecidableEq

/-- Order sides (src/types/trading.ts `OrderSide`). -/
inductive OrderSide where
  | buy
  | sell
deriving DecidableEq

/-- A simulated order (src/types/trading.ts `SimulatedOrder`). -/
structure SimulatedOrder where
  id : String
  venue : Venue
  symbol : String
  type : OrderType
  side : OrderSide
  price : ℚ
  quantity : ℚ
  timing : String
  timestamp : ℕ
deriving DecidableEq

/-- Derived order impact metrics (src/types/trading.ts `OrderMetrics`). -/
structure OrderMetrics where
  fillPercentage : ℚ
  marketImpact : ℚ
  slippage : ℚ
  estimatedFillTime : String
  warnings : List String
deriving DecidableEq

/-- Insertion of one element into a list sorted by the boolean comparison
`le`; models one step of the (stable) `Array.sort` the generator applies. -/
def insertBy (le : α → α → Bool) (x : α) : List α → List α
  | [] => [x]
  | y :: rest => if le x y then x :: y :: rest else y :: insertBy le x rest

/-- Sorting by the boolean comparison `le`; models the JS `Array.sort`
calls of the generator (any correct comparison sort agrees observationally). -/
def sortByRel (le : α → α → Bool) (l : List α) : List α :=
  l.foldr (insertBy le) []

/-- The bid comparator `(a, b) => b[0] - a[0]`: descending by price. -/
def bidDescBool (a b : ℚ × ℚ) : Bool := decide (b.1 ≤ a.1)

/-- The ask comparator `(a, b) => a[0] - b[0]`: ascending by price. -/
def askAscBool (a b : ℚ × ℚ) : Bool := decide (a.1 ≤ b.1)

/-- The venue multiplier table of `generateMockOrderbook` (the `|| 1.0`
fallback applies to venues outside the table). -/
def mockVenueMultiplier (venue : String) : ℚ :=
  if venue = "OKX" then 1.0
  else if venue = "Bybit" then 1.001
  else if venue = "Deribit" then 0.999
  else if venue = "Mock" then 1.0
  else 1.0

/-- Bid level `i` before sorting: price offset `(i + 1) * (rand * 5 + 2)`
below the adjusted base, size `rand * 3 + 0.1`; the two `Math.random()`
draws of iteration `i` are `rand (2 * i)` and `rand (2 * i + 1)`. -/
def mockBidLevel (adjustedBasePrice : ℚ) (rand : ℕ → ℚ) (i : ℕ) : ℚ × ℚ :=
  (adjustedBasePrice - ((i : ℚ) + 1) * (rand (2 * i) * 5 + 2), rand (2 * i + 1) * 3 + 0.1)

/-- Ask level `i` before sorting; the ask loop runs after the bid loop, so its
draws continue the stream at offset 50. -/
def mockAskLevel (adjustedBasePrice : ℚ) (rand : ℕ → ℚ) (i : ℕ) : ℚ × ℚ :=
  (adjustedBasePrice + ((i : ℚ) + 1) * (rand (50 + 2 * i) * 5 + 2), rand (50 + 2 * i + 1) * 3 + 0.1)

/-- The generator's bid side: the 25-iteration bid loop followed by the
descending sort. -/
def mockBids (basePrice : ℚ) (venue : String) (rand : ℕ → ℚ) : List (ℚ × ℚ) :=
  sortByRel bidDescBool
    ((List.range 25).map (mockBidLevel (basePrice * mockVenueMultiplier venue) rand))

/-- The generator's ask side: the 25-iteration ask loop followed by the
ascending sort. -/
def mockAsks (basePrice : ℚ) (venue : String) (rand : ℕ → ℚ) : List (ℚ × ℚ) :=
  sortByRel askAscBool
    ((List.range 25).map (mockAskLevel (basePrice * mockVenueMultiplier venue) rand))

/-- The synthetic generator `generateMockOrderbook(basePrice, venue)`
(src/hooks/use-mock-data.ts): 25 bid and 25 ask levels around
`basePrice * venueMultiplier` (the adjusted base price, inlined here into the
two side builders), sorted descending and ascending by price. -/
def generateMockOrderbook (basePrice : ℚ) (venue : String) (rand : ℕ → ℚ) (now : ℕ) : Orderbook :=
  { bids := mockBids basePrice venue rand
    asks := mockAsks basePrice venue rand
    timestamp := now }

/-- The symbol-to-reference-price table of `getMockOrderbookForVenue`
(all table values are truthy, so `|| 50000` fires exactly off-table). -/
def mockBasePrice (symbol : String) : ℚ :=
  if symbol = "BTC-USD" then 43000
  else if symbol = "ETH-USD" then 2500
  else if symbol = "BTC-USDT" then 43000
  else if symbol = "ETH-USDT" then 2500
  else if symbol = "BTCUSDT" then 43000
  else if symbol = "ETHUSDT" then 2500
  else if symbol = "BTC-PERPETUAL" then 43000
  else if symbol = "ETH-PERPETUAL" then 2500
  else 50000

/-- `getMockOrderbookForVenue(venue, symbol)`: base price from the table,
±50 jitter from the first draw, then `generateMockOrderbook` on the rest of
the draw stream. -/
def getMockOrderbookForVenue (venue symbol : String) (rand : ℕ → ℚ) (now : ℕ) : Orderbook :=
  let basePrice := mockBasePrice symbol
  let adjustedPrice := basePrice + (rand 0 - 0.5) * 100
  generateMockOrderbook adjustedPrice venue (fun n => rand (n + 1)) now

/-- The timing multiplier table of `calculateOrderMetrics` (`|| 1.0` for
unrecognized timings; every table value is truthy). -/
def timingMultiplier (timing : String) : ℚ :=
  if timing = "immediate" then 1.2
  else if timing = "5s" then 1.0
  else if timing = "10s" then 0.9
  else if timing = "30s" then 0.8
  else 1.0

/-- The order impact estimator `calculateOrderMetrics` (useOrderSimulation):
a pure function of the order's quantity, timing and price. -/
def calculateOrderMetrics (order : SimulatedOrder) : OrderMetrics :=
  let baseImpact := order.quantity * 0.01
  let marketImpact := baseImpact * timingMultiplier order.timing
  let fillPercentage := max 20 (100 - marketImpact * 10)
  let slippage := marketImpact * order.price * 0.1
  let estimatedFillTime :=
    if order.timing = "immediate" then "<1s" else replaceFirst order.timing "s" "" ++ "s"
  let warnings :=
    (if marketImpact > 1.5 then ["High market impact detected"] else []) ++
    (if slippage > order.price * 0.005 then ["Significant slippage expected"] else []) ++
    (if fillPercentage < 70 then ["Low fill probability"] else []) ++
    (if order.timing ≠ "immediate" ∧ marketImpact > 1.0 then
      ["Consider immediate execution to reduce impact"] else [])
  { fillPercentage := fillPercentage
    marketImpact := marketImpact
    slippage := slippage
    estimatedFillTime := estimatedFillTime
    warnings := warnings }

/-- `formatSymbolForVenue` (src/hooks/use-mock-data.ts): OKX replaces the
first "USD" with "USDT"; Bybit drops the first dash then does the same;
Deribit keeps the base currency and appends "-PERPETUAL". -/
def formatSymbolForVenue (venue : Venue) (symbol : String) : String :=
  match venue with
  | .OKX => replaceFirst symbol "USD" "USDT"
  | .Bybit => replaceFirst (replaceFirst symbol "-" "") "USD" "USDT"
  | .Deribit => String.mk (symbol.data.takeWhile (fun c => c ≠ '-')) ++ "-PERPETUAL"

/-- A parsed book as `parseOrderbookData` returns it: the level values are the
raw JS values the venue pipeline produced (the source leaves them untyped). -/
structure ParsedOrderbook where
  bids : List JsVal
  asks : List JsVal
  timestamp : ℕ

/-- The level filter callback `([price, size]) => price > 0 && size > 0`:
destructuring a non-iterable level throws (`none`). -/
def levelKeep (v : JsVal) : Option Bool :=
  (destructure2 v).map (fun p => jsGtZero p.1 && jsGtZero p.2)

/-- The level map callback of the OKX/Bybit pipelines,
`([price, size]) => [parseFloat(price), parseFloat(size)]`. -/
def coerceLevel (v : JsVal) : Option JsVal :=
  (destructure2 v).map (fun p => .arr [parseFloatJs p.1, parseFloatJs p.2])

/-- `.filter(([price, size]) => price > 0 && size > 0)` with throw
propagation from the callback. -/
def filterLevels : List JsVal → Option (List JsVal)
  | [] => some []
  | v :: rest =>
      match levelKeep v, filterLevels rest with
      | some keep, some out => some (if keep then v :: out else out)
      | _, _ => none

/-- The common tail of every side pipeline: positivity filter then
`.slice(0, 25)`. -/
def finishSide (levels : List JsVal) : Option (List JsVal) :=
  (filterLevels levels).map (fun out => out.take 25)

/-- `.map(([price, size]) => [parseFloat(price), parseFloat(size)])` applied
to a raw side: calling `.map` on a non-array throws, as does destructuring a
non-iterable element. -/
def coerceSide (levels : JsVal) : Option (List JsVal) :=
  (asArr levels).bind (fun raw => raw.mapM coerceLevel)

/-- `data.topic.includes("orderbook")` on a truthy topic: strings search for
the substring, arrays have a (membership) `includes` of their own, any other
truthy value throws (`none`). -/
def includesOrderbook : JsVal → Option Bool
  | .str s => some (containsSub "orderbook".data s.data)
  | .arr elems =>
      some (elems.any (fun v =>
        match v with
        | .str s => decide (s = "orderbook")
        | _ => false))
  | _ => none

/-- The venue-specific guard-and-extract stage of `parseOrderbookData`, up to
and including the numeric coercion map (Deribit levels pass through raw):
`none` covers both a failed guard (the source breaks and returns `null`) and a
thrown coercion (caught, returning `null`). -/
def extractSides (venue : Venue) (data : JsVal) : Option (List JsVal × List JsVal) :=
  match venue with
  | .OKX =>
      (getField data "data").bind (fun outer =>
        if truthy outer then
          match asArr outer with
          | none => none
          | some elems =>
              if truthy (index0 elems) then
                (getField (index0 elems) "bids").bind (fun rawBids =>
                  (getField (index0 elems) "asks").bind (fun rawAsks =>
                    if truthy rawBids && truthy rawAsks then
                      (coerceSide rawBids).bind (fun bids =>
                        (coerceSide rawAsks).map (fun asks => (bids, asks)))
                    else none))
              else none
        else none)
  | .Bybit =>
      (getField data "topic").bind (fun topic =>
        if truthy topic then
          (includesOrderbook topic).bind (fun inc =>
            if inc then
              (getField data "data").bind (fun inner =>
                if truthy inner then
                  (getField inner "b").bind (fun rawB =>
                    (getField inner "a").bind (fun rawA =>
                      if truthy rawB && truthy rawA then
                        (coerceSide rawB).bind (fun bids =>
                          (coerceSide rawA).map (fun asks => (bids, asks)))
                      else none))
                else none)
            else none)
        else none)
  | .Deribit =>
      (getField data "params").bind (fun params =>
        if truthy params then
          (getField params "data").bind (fun inner =>
            if truthy inner then
              (getField inner "bids").bind (fun rawBids =>
                (getField inner "asks").bind (fun rawAsks =>
                  if truthy rawBids && truthy rawAsks then
                    (asArr rawBids).bind (fun bids =>
                      (asArr rawAsks).map (fun asks => (bids, asks)))
                  else none))
            else none)
        else none)

/-- `parseOrderbookData(venue, data)` (src/hooks/use-mock-data.ts): venue
extraction, positivity filter, truncation to 25 levels, receive-time stamp;
`none` is the `null` result (guard miss or caught exception). -/
def parseOrderbookData (venue : Venue) (data : JsVal) (now : ℕ) : Option ParsedOrderbook :=
  (extractSides venue data).bind (fun sides =>
    (finishSide sides.1).bind (fun bids =>
      (finishSide sides.2).map (fun asks =>
        { bids := bids, asks := asks, timestamp := now })))

/-- Price of a level as the filter's comparison sees it: first destructured
component, JS-coerced to a number. -/
def levelPrice (v : JsVal) : Option ℚ :=
  (destructure2 v).bind (fun p => jsToNumber p.1)

/-- Level `u` has strictly greater (coerced) price than level `v`. -/
def levelPriceGt (u v : JsVal) : Bool :=
  match levelPrice u, levelPrice v with
  | some a, some b => decide (b < a)
  | _, _ => false

/-- Level `u` has strictly smaller (coerced) price than level `v`. -/
def levelPriceLt (u v : JsVal) : Bool :=
  match levelPrice u, levelPrice v with
  | some a, some b => decide (a < b)
  | _, _ => false

/-- Supervisor-owned state for one (venue, symbol) key: the status and store
entry exposed downstream, the error string, the transport handle
(`wsExists`/`wsOpen` standing for the handle and its `readyState === OPEN`),
and one slot per timer holding its delay or period in milliseconds. -/
structure ConnState where
  status : ConnectionStatus
  orderbook : Option Orderbook
  errorMsg : Option String
  wsExists : Bool
  wsOpen : Bool
  connectionTimeout : Option ℕ
  heartbeat : Option ℕ
  reconnect : Option ℕ
  mockInterval : Option ℕ
deriving DecidableEq

/-- State before any connection attempt. -/
def initConnState : ConnState :=
  { status := ConnectionStatus.disconnected
    orderbook := none
    errorMsg := none
    wsExists := false
    wsOpen := false
    connectionTimeout := none
    heartbeat := none
    reconnect := none
    mockInterval := none }

/-- Events driving one key's connection: `construct ok` is a `connectToVenue`
call whose `new WebSocket` succeeds or throws; the timer firings carry the
`Math.random()` stream and `Date.now()` value their handlers consume. -/
inductive Event where
  | construct (ok : Bool)
  | openEvt
  | timeoutFire (rand : ℕ → ℚ) (now : ℕ)
  | closeEvt (code : ℕ)
  | errorEvt
  | mockTick (rand : ℕ → ℚ) (now : ℕ)
  | reconnectFire (ok : Bool)
  | heartbeatTick

/-- The cleanup prologue of `connectToVenue`: close and drop the old
transport, clear the heartbeat and reconnect slots (the mock-refresh interval
is stored under the separate key `…-mock` and is not cleared). -/
def cleanupKey (s : ConnState) : ConnState :=
  { s with wsExists := false, wsOpen := false, heartbeat := none, reconnect := none }

/-- `connectToVenue` up to transport construction: status `connecting`, then
either a fresh transport plus the 15 s connect timeout, or — when the
constructor throws — `createWebSocket`'s catch sets status `error` and the
call returns with nothing else done. -/
def stepConstruct (s : ConnState) (ok : Bool) : ConnState :=
  let s1 := { cleanupKey s with status := ConnectionStatus.connecting }
  if ok then { s1 with wsExists := true, connectionTimeout := some 15000 }
  else { s1 with status := ConnectionStatus.error }

/-- The error string `ws.onerror` surfaces. -/
def connectionFailedMsg (venue : Venue) : String :=
  venueName venue ++ " connection failed. Using mock data for demonstration."

/-- One supervisor transition for the key `(venue, symbol)`: the transport
handlers (`onopen`, `onclose`, `onerror`), the connect-timeout fallback, the
mock-refresh tick, the reconnect firing and the heartbeat tick, each as the
source installs them. -/
def stepE (venue : Venue) (symbol : String) (s : ConnState) : Event → ConnState
  | .construct ok => stepConstruct s ok
  | .openEvt =>
      if s.wsExists then
        { s with connectionTimeout := none
                 wsOpen := true
                 status := ConnectionStatus.connected
                 errorMsg := none
                 heartbeat := some 30000 }
      else s
  | .timeoutFire rand now =>
      match s.connectionTimeout with
      | none => s
      | some _ =>
          if s.wsOpen then { s with connectionTimeout := none }
          else
            { s with connectionTimeout := none
                     wsExists := false
                     status := ConnectionStatus.connected
                     orderbook := some (getMockOrderbookForVenue (venueName venue) symbol rand now)
                     mockInterval := some 2000 }
  | .closeEvt code =>
      let s1 := { s with status := ConnectionStatus.disconnected
                         wsOpen := false
                         wsExists := false
                         heartbeat := none }
      if code ≠ 1000 ∧ code ≠ 1001 then { s1 with reconnect := some 5000 } else s1
  | .errorEvt =>
      { s with status := ConnectionStatus.error
               errorMsg := some (connectionFailedMsg venue) }
  | .mockTick rand now =>
      if s.mockInterval.isSome then
        { s with orderbook := some (getMockOrderbookForVenue (venueName venue) symbol rand now) }
      else s
  | .reconnectFire ok =>
      if s.reconnect.isSome then stepConstruct { s with reconnect := none } ok else s
  | .heartbeatTick => if s.wsOpen then s else { s with heartbeat := none }

/-- Run a sequence of events. -/
def runTrace (venue : Venue) (symbol : String) : ConnState → List Event → ConnState
  | s, [] => s
  | s, e :: rest => runTrace venue symbol (stepE venue symbol s e) rest

/-- Events that neither open the transport nor restart the connection nor
fire the connect timeout: what may happen while the 15 s timeout is pending
on a connection that never opens. -/
def passiveEvent : Event → Bool
  | .construct _ => false
  | .openEvt => false
  | .timeoutFire _ _ => false
  | .reconnectFire _ => false
  | .closeEvt _ => true
  | .errorEvt => true
  | .mockTick _ _ => true
  | .heartbeatTick => true

/-- Draw stream for the C2 counterexample: first bid-price draw `0.4`, every
other draw `0`. -/
def clashRand : ℕ → ℚ := fun n => if n = 0 then 0.4 else 0

/-- A concrete order with quantity 1, price 100, timing "immediate". -/
def c1SampleOrder : SimulatedOrder :=
  { id := "sim-1"
    venue := Venue.OKX
    symbol := "BTC-USD"
    type := OrderType.limit
    side := OrderSide.buy
    price := 100
    quantity := 1
    timing := "immediate"
    timestamp := 0 }

/-- Two orders agreeing on quantity, timing and price and differing in every
other field. -/
def purityOrderA : SimulatedOrder :=
  { id := "a"
    venue := Venue.OKX
    symbol := "BTC-USD"
    type := OrderType.market
    side := OrderSide.buy
    price := 100
    quantity := 3
    timing := "5s"
    timestamp := 0 }

/-- Counterpart of `purityOrderA` with different id, venue, symbol, type,
side and timestamp. -/
def purityOrderB : SimulatedOrder :=
  { id := "b"
    venue := Venue.Deribit
    symbol := "ETH-USDT"
    type := OrderType.limit
    side := OrderSide.sell
    price := 100
    quantity := 3
    timing := "5s"
    timestamp := 999 }

theorem mem_insertBy {le : α → α → Bool} {x a : α} {l : List α} :
    a ∈ insertBy le x l ↔ a = x ∨ a ∈ l := by
  induction l with
  | nil => simp [insertBy]
  | cons y rest ih =>
      by_cases h : le x y = true
      · simp only [insertBy, if_pos h, List.mem_cons]
      · simp only [insertBy, if_neg h, List.mem_cons, ih]
        tauto

theorem length_insertBy {le : α → α → Bool} (x : α) (l : List α) :
    (insertBy le x l).length = l.length + 1 := by
  induction l with
  | nil => rfl
  | cons y rest ih =>
      by_cases h : le x y = true
      · simp [insertBy, if_pos h]
      · simp [insertBy, if_neg h, ih]

theorem pairwise_insertBy {le : α → α → Bool}
    (htot : ∀ a b, le a b = true ∨ le b a = true)
    (htrans : ∀ a b c, le a b = true → le b c = true → le a c = true)
    (x : α) {l : List α} (h : l.Pairwise (fun a b => le a b = true)) :
    (insertBy le x l).Pairwise (fun a b => le a b = true) := by
  induction l with
  | nil => simp [insertBy]
  | cons y rest ih =>
      rcases List.pairwise_cons.mp h with ⟨hy, hrest⟩
      by_cases hxy : le x y = true
      · simp only [insertBy, if_pos hxy]
        refine List.pairwise_cons.mpr ⟨?_, h⟩
        intro b hb
        rcases List.mem_cons.mp hb with rfl | hb
        · exact hxy
        · exact htrans x y b hxy (hy b hb)
      · simp only [insertBy, if_neg hxy]
        refine List.pairwise_cons.mpr ⟨?_, ih hrest⟩
        intro b hb
        rcases mem_insertBy.mp hb with rfl | hb
        · rcases htot b y with hx | hyx
          · exact absurd hx hxy
          · exact hyx
        · exact hy b hb

theorem mem_sortByRel {le : α → α → Bool} {a : α} {l : List α} :
    a ∈ sortByRel le l ↔ a ∈ l := by
  induction l with
  | nil => simp [sortByRel]
  | cons x rest ih =>
      show a ∈ insertBy le x (sortByRel le rest) ↔ _
      rw [mem_insertBy, ih, List.mem_cons]

theorem length_sortByRel {le : α → α → Bool} (l : List α) :
    (sortByRel le l).length = l.length := by
  induction l with
  | nil => rfl
  | cons x rest ih =>
      show (insertBy le x (sortByRel le rest)).length = _
      rw [length_insertBy, ih, List.length_cons]

theorem pairwise_sortByRel {le : α → α → Bool}
    (htot : ∀ a b, le a b = true ∨ le b a = true)
    (htrans : ∀ a b c, le a b = true → le b c = true → le a c = true)
    (l : List α) :
    (sortByRel le l).Pairwise (fun a b => le a b = true) := by
  induction l with
  | nil => simp [sortByRel]
  | cons x rest ih => exact pairwise_insertBy htot htrans x ih

/-- C2 (amended): for every reference price, venue bias and draw stream in
[0, 1), the generator returns exactly 25 bid and 25 ask levels, bids sorted
weakly descending and asks weakly ascending by price (ties are possible, so
only weak monotonicity holds), every size positive, and every price within
175 of the adjusted base price on the correct side — so prices are positive
only when the adjusted base price is large enough, not unconditionally. -/
theorem generateMockOrderbook_invariants (basePrice : ℚ) (venue : String) (rand : ℕ → ℚ)
    (now : ℕ) (hrand : ∀ n, 0 ≤ rand n ∧ rand n < 1) :
    (generateMockOrderbook basePrice venue rand now).bids.length = 25 ∧
    (generateMockOrderbook basePrice venue rand now).asks.length = 25 ∧
    (generateMockOrderbook basePrice venue rand now).bids.Pairwise (fun a b => b.1 ≤ a.1) ∧
    (generateMockOrderbook basePrice venue rand now).asks.Pairwise (fun a b => a.1 ≤ b.1) ∧
    (∀ l ∈ (generateMockOrderbook basePrice venue rand now).bids,
      0 < l.2 ∧ basePrice * mockVenueMultiplier venue - 175 < l.1 ∧
        l.1 < basePrice * mockVenueMultiplier venue) ∧
    (∀ l ∈ (generateMockOrderbook basePrice venue rand now).asks,
      0 < l.2 ∧ basePrice * mockVenueMultiplier venue < l.1 ∧
        l.1 < basePrice * mockVenueMultiplier venue + 175) := by
  have hbtot : ∀ a b : ℚ × ℚ, bidDescBool a b = true ∨ bidDescBool b a = true := by
    intro a b
    simp only [bidDescBool, decide_eq_true_eq]
    exact le_total b.1 a.1
  have hbtrans : ∀ a b c : ℚ × ℚ,
      bidDescBool a b = true → bidDescBool b c = true → bidDescBool a c = true := by
    intro a b c
    simp only [bidDescBool, decide_eq_true_eq]
    intro h1 h2
    exact h2.trans h1
  have hatot : ∀ a b : ℚ × ℚ, askAscBool a b = true ∨ askAscBool b a = true := by
    intro a b
    simp only [askAscBool, decide_eq_true_eq]
    exact le_total a.1 b.1
  have hatrans : ∀ a b c : ℚ × ℚ,
      askAscBool a b = true → askAscBool b c = true → askAscBool a c = true := by
    intro a b c
    simp only [askAscBool, decide_eq_true_eq]
    intro h1 h2
    exact h1.trans h2
  have hbids : (generateMockOrderbook basePrice venue rand now).bids
      = mockBids basePrice venue rand := by simp only [generateMockOrderbook]
  have hasks : (generateMockOrderbook basePrice venue rand now).asks
      = mockAsks basePrice venue rand := by simp only [generateMockOrderbook]
  refine ⟨?_, ?_, ?_, ?_, ?_, ?_⟩
  · rw [hbids]
    simp only [mockBids]
    rw [length_sortByRel, List.length_map, List.length_range]
  · rw [hasks]
    simp only [mockAsks]
    rw [length_sortByRel, List.length_map, List.length_range]
  · rw [hbids]
    simp only [mockBids]
    exact (pairwise_sortByRel hbtot hbtrans _).imp
      (fun h => by simpa [bidDescBool] using h)
  · rw [hasks]
    simp only [mockAsks]
    exact (pairwise_sortByRel hatot hatrans _).imp
      (fun h => by simpa [askAscBool] using h)
  · intro l hl
    rw [hbids] at hl
    simp only [mockBids] at hl
    rw [mem_sortByRel, List.mem_map] at hl
    obtain ⟨i, hi, rfl⟩ := hl
    rw [List.mem_range] at hi
    obtain ⟨hp0, hp1⟩ := hrand (2 * i)
    obtain ⟨hs0, hs1⟩ := hrand (2 * i + 1)
    have hic : (i : ℚ) ≤ 24 := by exact_mod_cast Nat.lt_succ_iff.mp hi
    have hic0 : (0 : ℚ) ≤ (i : ℚ) := Nat.cast_nonneg i
    refine ⟨by simp only [mockBidLevel]; nlinarith, ?_, ?_⟩
    · simp only [mockBidLevel]
      have hfac : rand (2 * i) * 5 + 2 < 7 := by nlinarith
      have hfac0 : 0 < rand (2 * i) * 5 + 2 := by nlinarith
      have h1 : ((i : ℚ) + 1) * (rand (2 * i) * 5 + 2) ≤ 25 * (rand (2 * i) * 5 + 2) := by
        nlinarith
      have h2 : 25 * (rand (2 * i) * 5 + 2) < 175 := by nlinarith
      nlinarith
    · simp only [mockBidLevel]
      have hfac0 : 0 < rand (2 * i) * 5 + 2 := by nlinarith
      have hpos : 0 < ((i : ℚ) + 1) * (rand (2 * i) * 5 + 2) := by nlinarith
      nlinarith
  · intro l hl
    rw [hasks] at hl
    simp only [mockAsks] at hl
    rw [mem_sortByRel, List.mem_map] at hl
    obtain ⟨i, hi, rfl⟩ := hl
    rw [List.mem_range] at hi
    obtain ⟨hp0, hp1⟩ := hrand (50 + 2 * i)
    obtain ⟨hs0, hs1⟩ := hrand (50 + 2 * i + 1)
    have hic : (i : ℚ) ≤ 24 := by exact_mod_cast Nat.lt_succ_iff.mp hi
    have hic0 : (0 : ℚ) ≤ (i : ℚ) := Nat.cast_nonneg i
    refine ⟨by simp only [mockAskLevel]; nlinarith, ?_, ?_⟩
    · simp only [mockAskLevel]
      have hfac0 : 0 < rand (50 + 2 * i) * 5 + 2 := by nlinarith
      have hpos : 0 < ((i : ℚ) + 1) * (rand (50 + 2 * i) * 5 + 2) := by nlinarith
      nlinarith
    · simp only [mockAskLevel]
      have hfac : rand (50 + 2 * i) * 5 + 2 < 7 := by nlinarith
      have hfac0 : 0 < rand (50 + 2 * i) * 5 + 2 := by nlinarith
      have h1 : ((i : ℚ) + 1) * (rand (50 + 2 * i) * 5 + 2)
          ≤ 25 * (rand (50 + 2 * i) * 5 + 2) := by nlinarith
      have h2 : 25 * (rand (50 + 2 * i) * 5 + 2) < 175 := by nlinarith
      nlinarith

/-- Witness for C2 at reference price 43000, venue "OKX" and the all-zero
draw stream. -/
theorem generateMockOrderbook_invariants_witness :
    (generateMockOrderbook 43000 "OKX" (fun _ => 0) 0).bids.length = 25 ∧
    (generateMockOrderbook 43000 "OKX" (fun _ => 0) 0).asks.length = 25 ∧
    (generateMockOrderbook 43000 "OKX" (fun _ => 0) 0).bids.Pairwise (fun a b => b.1 ≤ a.1) ∧
    (generateMockOrderbook 43000 "OKX" (fun _ => 0) 0).asks.Pairwise (fun a b => a.1 ≤ b.1) ∧
    (∀ l ∈ (generateMockOrderbook 43000 "OKX" (fun _ => 0) 0).bids,
      0 < l.2 ∧ 43000 * mockVenueMultiplier "OKX" - 175 < l.1 ∧
        l.1 < 43000 * mockVenueMultiplier "OKX") ∧
    (∀ l ∈ (generateMockOrderbook 43000 "OKX" (fun _ => 0) 0).asks,
      0 < l.2 ∧ 43000 * mockVenueMultiplier "OKX" < l.1 ∧
        l.1 < 43000 * mockVenueMultiplier "OKX" + 175) :=
  generateMockOrderbook_invariants 43000 "OKX" (fun _ => 0) 0 (fun _ => ⟨le_rfl, one_pos⟩)

/-- Counterexample to C2 as stated: with reference price 0, bias factor 1
("OKX") and the admissible draw stream `clashRand`, the generated bids are
neither strictly descending (levels 0 and 1 tie at price -4) nor positively
priced. -/
theorem generateMockOrderbook_counterexample :
    (∀ n, 0 ≤ clashRand n ∧ clashRand n < 1) ∧
    ¬ ((generateMockOrderbook 0 "OKX" clashRand 0).bids.Pairwise (fun a b => b.1 < a.1) ∧
       ∀ l ∈ (generateMockOrderbook 0 "OKX" clashRand 0).bids, 0 < l.1 ∧ 0 < l.2) := by
  constructor
  · intro n
    unfold clashRand
    split <;> constructor <;> norm_num
  · intro hc
    exact absurd hc.1 (by decide)

/-- C1 (amended): an order with quantity 1, price 100 and timing "immediate"
gets marketImpact 0.012, fillPercentage 99.88 (the code computes
`max 20 (100 - marketImpact * 10) = 100 - 0.12`, not 98.8), slippage 0.12 and
no warnings. -/
theorem calculateOrderMetrics_q1_p100_immediate (o : SimulatedOrder)
    (hq : o.quantity = 1) (hp : o.price = 100) (ht : o.timing = "immediate") :
    (calculateOrderMetrics o).marketImpact = 0.012 ∧
    (calculateOrderMetrics o).fillPercentage = 99.88 ∧
    (calculateOrderMetrics o).slippage = 0.12 ∧
    (calculateOrderMetrics o).warnings = [] := by
  obtain ⟨i, v, sy, ty, sd, p, q, tm, ts⟩ := o
  dsimp only at hq hp ht
  subst hq hp ht
  have hcanon : calculateOrderMetrics
      { id := i, venue := v, symbol := sy, type := ty, side := sd, price := 100, quantity := 1,
        timing := "immediate", timestamp := ts } =
      calculateOrderMetrics
      { id := "", venue := Venue.OKX, symbol := "", type := OrderType.market,
        side := OrderSide.buy, price := 100, quantity := 1, timing := "immediate",
        timestamp := 0 } := rfl
  rw [hcanon]
  decide

/-- Witness for C1 at the concrete order `c1SampleOrder`. -/
theorem calculateOrderMetrics_q1_p100_immediate_witness :
    (calculateOrderMetrics c1SampleOrder).marketImpact = 0.012 ∧
    (calculateOrderMetrics c1SampleOrder).fillPercentage = 99.88 ∧
    (calculateOrderMetrics c1SampleOrder).slippage = 0.12 ∧
    (calculateOrderMetrics c1SampleOrder).warnings = [] :=
  calculateOrderMetrics_q1_p100_immediate c1SampleOrder rfl rfl rfl

/-- Counterexample to C1 as stated: at quantity 1, price 100, timing
"immediate" the computed fillPercentage is not 98.8 (it is 99.88). -/
theorem calculateOrderMetrics_fill_counterexample :
    c1SampleOrder.quantity = 1 ∧ c1SampleOrder.price = 100 ∧
    c1SampleOrder.timing = "immediate" ∧
    (calculateOrderMetrics c1SampleOrder).fillPercentage ≠ 98.8 :=
  ⟨rfl, rfl, rfl, by decide⟩

/-- C9: the metrics computation reads only the order's quantity, timing and
price (its type consumes no orderbook state at all), so two orders agreeing
on those three fields get identical metrics whatever their venue, symbol,
side, type, id or timestamp. -/
theorem calculateOrderMetrics_pure (o1 o2 : SimulatedOrder)
    (hq : o1.quantity = o2.quantity) (ht : o1.timing = o2.timing)
    (hp : o1.price = o2.price) :
    calculateOrderMetrics o1 = calculateOrderMetrics o2 := by
  obtain ⟨i1, v1, sy1, ty1, sd1, p1, q1, tm1, ts1⟩ := o1
  obtain ⟨i2, v2, sy2, ty2, sd2, p2, q2, tm2, ts2⟩ := o2
  dsimp only at hq ht hp
  subst hq ht hp
  rfl

/-- Witness for C9 at two concrete orders differing in id, venue, symbol,
type, side and timestamp. -/
theorem calculateOrderMetrics_pure_witness :
    calculateOrderMetrics purityOrderA = calculateOrderMetrics purityOrderB :=
  calculateOrderMetrics_pure purityOrderA purityOrderB rfl rfl rfl

/-- C10: for the Symbol members "BTC-USDT" and "ETH-USDT", translation
replaces the first "USD" occurrence rather than a true suffix, yielding
"BTC-USDTT"/"ETH-USDTT" on OKX and "BTCUSDTT"/"ETHUSDTT" on Bybit. -/
theorem formatSymbolForVenue_usdt_first_occurrence :
    "BTC-USDT" ∈ symbolValues ∧ "ETH-USDT" ∈ symbolValues ∧
    formatSymbolForVenue Venue.OKX "BTC-USDT" = "BTC-USDTT" ∧
    formatSymbolForVenue Venue.OKX "ETH-USDT" = "ETH-USDTT" ∧
    formatSymbolForVenue Venue.Bybit "BTC-USDT" = "BTCUSDTT" ∧
    formatSymbolForVenue Venue.Bybit "ETH-USDT" = "ETHUSDTT" :=
  ⟨by decide, by decide, rfl, rfl, rfl, rfl⟩

theorem filterLevels_sublist : ∀ {l out : List JsVal},
    filterLevels l = some out → List.Sublist out l := by
  intro l
  induction l with
  | nil =>
      intro out h
      simp only [filterLevels, Option.some.injEq] at h
      subst h
      exact List.Sublist.refl []
  | cons v rest ih =>
      intro out h
      simp only [filterLevels] at h
      cases hk : levelKeep v with
      | none => rw [hk] at h; simp at h
      | some keep =>
          cases hr : filterLevels rest with
          | none => rw [hk, hr] at h; simp at h
          | some mid =>
              rw [hk, hr] at h
              simp only [Option.some.injEq] at h
              subst h
              cases keep with
              | true => simpa using List.Sublist.cons₂ v (ih hr)
              | false => simpa using List.Sublist.cons v (ih hr)

theorem filterLevels_mem : ∀ {l out : List JsVal},
    filterLevels l = some out → ∀ x ∈ out, levelKeep x = some true := by
  intro l
  induction l with
  | nil =>
      intro out h
      simp only [filterLevels, Option.some.injEq] at h
      subst h
      intro x hx
      exact absurd hx (List.not_mem_nil x)
  | cons v rest ih =>
      intro out h
      simp only [filterLevels] at h
      cases hk : levelKeep v with
      | none => rw [hk] at h; simp at h
      | some keep =>
          cases hr : filterLevels rest with
          | none => rw [hk, hr] at h; simp at h
          | some mid =>
              rw [hk, hr] at h
              simp only [Option.some.injEq] at h
              subst h
              cases keep with
              | true =>
                  intro x hx
                  simp only [if_true] at hx
                  rcases List.mem_cons.mp hx with rfl | hx
                  · exact hk
                  · exact ih hr x hx
              | false =>
                  intro x hx
                  simp only [Bool.false_eq_true, if_false] at hx
                  exact ih hr x hx

theorem finishSide_spec {l out : List JsVal} (h : finishSide l = some out) :
    out.length ≤ 25 ∧ (∀ x ∈ out, levelKeep x = some true) ∧ List.Sublist out l := by
  unfold finishSide at h
  cases hf : filterLevels l with
  | none => rw [hf] at h; simp at h
  | some mid =>
      rw [hf] at h
      simp only [Option.map_some', Option.some.injEq] at h
      subst h
      refine ⟨List.length_take_le 25 mid, ?_, ?_⟩
      · intro x hx
        exact filterLevels_mem hf x ((List.take_sublist 25 mid).subset hx)
      · exact (List.take_sublist 25 mid).trans (filterLevels_sublist hf)

theorem levelKeep_true_dest {l : JsVal} (h : levelKeep l = some true) :
    ∃ p s, destructure2 l = some (p, s) ∧ jsGtZero p = true ∧ jsGtZero s = true := by
  unfold levelKeep at h
  cases hd : destructure2 l with
  | none => rw [hd] at h; simp at h
  | some pr =>
      obtain ⟨p, s⟩ := pr
      rw [hd] at h
      simp only [Option.map_some', Option.some.injEq] at h
      rw [Bool.and_eq_true] at h
      exact ⟨p, s, rfl, h.1, h.2⟩

theorem parseOrderbookData_eq {venue : Venue} {data : JsVal} {now : ℕ}
    {book : ParsedOrderbook} (h : parseOrderbookData venue data now = some book) :
    ∃ sides, extractSides venue data = some sides ∧
      finishSide sides.1 = some book.bids ∧ finishSide sides.2 = some book.asks := by
  unfold parseOrderbookData at h
  cases he : extractSides venue data with
  | none => rw [he] at h; simp at h
  | some sides =>
      rw [he, Option.some_bind] at h
      cases hfb : finishSide sides.1 with
      | none => rw [hfb] at h; simp at h
      | some bids =>
          rw [hfb, Option.some_bind] at h
          cases hfa : finishSide sides.2 with
          | none => rw [hfa] at h; simp at h
          | some asks =>
              rw [hfa, Option.map_some'] at h
              injection h with h
              subst h
              exact ⟨sides, rfl, by rw [hfb], by rw [hfa]⟩

/-- C7: for every venue and raw message value the parser is a total function
that returns `none` (the `null` of the source, covering malformed and
unrecognized payloads and every internal throw) or a book whose sides each
hold at most 25 levels, every level destructuring to a price and size that
the JS comparison `> 0` accepts. -/
theorem parseOrderbookData_levels_valid (venue : Venue) (data : JsVal) (now : ℕ)
    (book : ParsedOrderbook) (h : parseOrderbookData venue data now = some book) :
    book.bids.length ≤ 25 ∧ book.asks.length ≤ 25 ∧
    (∀ l ∈ book.bids,
      ∃ p s, destructure2 l = some (p, s) ∧ jsGtZero p = true ∧ jsGtZero s = true) ∧
    (∀ l ∈ book.asks,
      ∃ p s, destructure2 l = some (p, s) ∧ jsGtZero p = true ∧ jsGtZero s = true) := by
  obtain ⟨sides, -, hb, ha⟩ := parseOrderbookData_eq h
  obtain ⟨hbl, hbm, -⟩ := finishSide_spec hb
  obtain ⟨hal, ham, -⟩ := finishSide_spec ha
  refine ⟨hbl, hal, ?_, ?_⟩
  · intro l hl
    exact levelKeep_true_dest (hbm l hl)
  · intro l hl
    exact levelKeep_true_dest (ham l hl)

/-- A valid OKX book message with one bid and one ask level. -/
def okxValidMsg : JsVal :=
  .obj [("data", .arr [.obj [("bids", .arr [.arr [.str "100", .str "2"]]),
                            ("asks", .arr [.arr [.str "101", .str "1"]])]])]

/-- The book the parser produces from `okxValidMsg`. -/
def okxValidBook : ParsedOrderbook :=
  { bids := [.arr [.num 100, .num 2]]
    asks := [.arr [.num 101, .num 1]]
    timestamp := 0 }

/-- Witness for C7 at the concrete OKX message `okxValidMsg`. -/
theorem parseOrderbookData_levels_valid_witness :
    parseOrderbookData Venue.OKX okxValidMsg 0 = some okxValidBook ∧
    (okxValidBook.bids.length ≤ 25 ∧ okxValidBook.asks.length ≤ 25 ∧
     (∀ l ∈ okxValidBook.bids,
       ∃ p s, destructure2 l = some (p, s) ∧ jsGtZero p = true ∧ jsGtZero s = true) ∧
     (∀ l ∈ okxValidBook.asks,
       ∃ p s, destructure2 l = some (p, s) ∧ jsGtZero p = true ∧ jsGtZero s = true)) :=
  ⟨rfl, parseOrderbookData_levels_valid Venue.OKX okxValidMsg 0 okxValidBook rfl⟩

/-- C8 (amended): the parser never reorders levels — each output side is the
payload side filtered and truncated — so the output is strictly monotonic
exactly when the surviving extracted levels already were; strict descent of
bids (ascent of asks) is conditional on the payload, not guaranteed. -/
theorem parseOrderbookData_order_conditional (venue : Venue) (data : JsVal) (now : ℕ)
    (book : ParsedOrderbook) (sides : List JsVal × List JsVal)
    (hp : parseOrderbookData venue data now = some book)
    (he : extractSides venue data = some sides)
    (hb : sides.1.Pairwise (fun u v => levelPriceGt u v = true))
    (ha : sides.2.Pairwise (fun u v => levelPriceLt u v = true)) :
    book.bids.Pairwise (fun u v => levelPriceGt u v = true) ∧
    book.asks.Pairwise (fun u v => levelPriceLt u v = true) := by
  obtain ⟨sides', he', hfb, hfa⟩ := parseOrderbookData_eq hp
  rw [he] at he'
  injection he' with hs
  subst hs
  exact ⟨hb.sublist (finishSide_spec hfb).2.2, ha.sublist (finishSide_spec hfa).2.2⟩

/-- An OKX message whose bid levels come sorted strictly descending and ask
levels strictly ascending. -/
def okxSortedMsg : JsVal :=
  .obj [("data", .arr [.obj [("bids", .arr [.arr [.str "101", .str "2"],
                                            .arr [.str "100", .str "3"]]),
                            ("asks", .arr [.arr [.str "102", .str "1"],
                                           .arr [.str "103", .str "1"]])]])]

/-- The coerced sides `extractSides` produces from `okxSortedMsg`. -/
def okxSortedSides : List JsVal × List JsVal :=
  ([.arr [.num 101, .num 2], .arr [.num 100, .num 3]],
   [.arr [.num 102, .num 1], .arr [.num 103, .num 1]])

/-- The book the parser produces from `okxSortedMsg`. -/
def okxSortedBook : ParsedOrderbook :=
  { bids := [.arr [.num 101, .num 2], .arr [.num 100, .num 3]]
    asks := [.arr [.num 102, .num 1], .arr [.num 103, .num 1]]
    timestamp := 0 }

/-- Witness for C8 at the concrete sorted OKX message `okxSortedMsg`. -/
theorem parseOrderbookData_order_conditional_witness :
    okxSortedBook.bids.Pairwise (fun u v => levelPriceGt u v = true) ∧
    okxSortedBook.asks.Pairwise (fun u v => levelPriceLt u v = true) :=
  parseOrderbookData_order_conditional Venue.OKX okxSortedMsg 0 okxSortedBook
    okxSortedSides rfl rfl (by decide) (by decide)

/-- An OKX message whose bid levels come sorted the wrong way (ascending). -/
def okxAscMsg : JsVal :=
  .obj [("data", .arr [.obj [("bids", .arr [.arr [.str "100", .str "1"],
                                            .arr [.str "101", .str "1"]]),
                            ("asks", .arr [.arr [.str "102", .str "1"],
                                           .arr [.str "103", .str "1"]])]])]

/-- The book the parser produces from `okxAscMsg`: its bids end up ascending. -/
def okxAscBook : ParsedOrderbook :=
  { bids := [.arr [.num 100, .num 1], .arr [.num 101, .num 1]]
    asks := [.arr [.num 102, .num 1], .arr [.num 103, .num 1]]
    timestamp := 0 }

/-- Counterexample to C8 as stated: the parser returns the non-null book
`okxAscBook` whose bids are not strictly descending by price (it echoes the
payload order without sorting). -/
theorem parseOrderbookData_not_sorted_counterexample :
    parseOrderbookData Venue.OKX okxAscMsg 0 = some okxAscBook ∧
    ¬ okxAscBook.bids.Pairwise (fun u v => levelPriceGt u v = true) :=
  ⟨rfl, by decide⟩

theorem stepE_passive_preserves (venue : Venue) (symbol : String) (s : ConnState)
    (e : Event) (hpe : passiveEvent e = true) (hws : s.wsOpen = false) :
    (stepE venue symbol s e).connectionTimeout = s.connectionTimeout ∧
    (stepE venue symbol s e).wsOpen = false := by
  cases e with
  | construct ok => exact absurd hpe (by simp [passiveEvent])
  | openEvt => exact absurd hpe (by simp [passiveEvent])
  | timeoutFire rand now => exact absurd hpe (by simp [passiveEvent])
  | reconnectFire ok => exact absurd hpe (by simp [passiveEvent])
  | closeEvt code =>
      constructor <;> simp only [stepE] <;> split <;> rfl
  | errorEvt => exact ⟨rfl, hws⟩
  | mockTick rand now =>
      constructor <;> simp only [stepE] <;> split <;> simp [hws]
  | heartbeatTick =>
      constructor <;> simp only [stepE, hws] <;> simp

theorem runTrace_passive (venue : Venue) (symbol : String) (s : ConnState)
    (es : List Event) (hp : ∀ e ∈ es, passiveEvent e = true) (hws : s.wsOpen = false) :
    (runTrace venue symbol s es).connectionTimeout = s.connectionTimeout ∧
    (runTrace venue symbol s es).wsOpen = false := by
  induction es generalizing s with
  | nil => exact ⟨rfl, hws⟩
  | cons e rest ih =>
      have hpe := hp e (List.mem_cons_self e rest)
      have hpr : ∀ x ∈ rest, passiveEvent x = true :=
        fun x hx => hp x (List.mem_cons_of_mem e hx)
      obtain ⟨h1, h2⟩ := stepE_passive_preserves venue symbol s e hpe hws
      obtain ⟨h3, h4⟩ := ih (stepE venue symbol s e) hpr h2
      exact ⟨h3.trans h1, h4⟩

/-- C3: starting a connection arms the 15 s connect timeout; if no transport
open event occurs before it fires (the trace holds only events that neither
open the transport nor restart the connection), the firing abandons the
transport, sets the venue status to "connected", stores a non-null synthetic
book for the key, and arms the 2 s synthetic-refresh interval whose every
tick regenerates that entry. -/
theorem connectTimeout_fallback (venue : Venue) (symbol : String) (s0 : ConnState)
    (es : List Event) (rand : ℕ → ℚ) (now : ℕ)
    (hp : ∀ e ∈ es, passiveEvent e = true) :
    (stepConstruct s0 true).connectionTimeout = some 15000 ∧
    (stepE venue symbol (runTrace venue symbol (stepConstruct s0 true) es)
        (Event.timeoutFire rand now)).status = ConnectionStatus.connected ∧
    (stepE venue symbol (runTrace venue symbol (stepConstruct s0 true) es)
        (Event.timeoutFire rand now)).orderbook
      = some (getMockOrderbookForVenue (venueName venue) symbol rand now) ∧
    (stepE venue symbol (runTrace venue symbol (stepConstruct s0 true) es)
        (Event.timeoutFire rand now)).wsExists = false ∧
    (stepE venue symbol (runTrace venue symbol (stepConstruct s0 true) es)
        (Event.timeoutFire rand now)).mockInterval = some 2000 ∧
    (∀ rand2 now2,
      (stepE venue symbol
          (stepE venue symbol (runTrace venue symbol (stepConstruct s0 true) es)
            (Event.timeoutFire rand now))
          (Event.mockTick rand2 now2)).orderbook
        = some (getMockOrderbookForVenue (venueName venue) symbol rand2 now2)) := by
  have hct : (stepConstruct s0 true).connectionTimeout = some 15000 := rfl
  have hwo : (stepConstruct s0 true).wsOpen = false := rfl
  obtain ⟨h1, h2⟩ := runTrace_passive venue symbol (stepConstruct s0 true) es hp hwo
  have hfall : stepE venue symbol (runTrace venue symbol (stepConstruct s0 true) es)
      (Event.timeoutFire rand now)
      = { runTrace venue symbol (stepConstruct s0 true) es with
          connectionTimeout := none
          wsExists := false
          status := ConnectionStatus.connected
          orderbook := some (getMockOrderbookForVenue (venueName venue) symbol rand now)
          mockInterval := some 2000 } := by
    simp only [stepE, h1.trans hct, h2, Bool.false_eq_true, if_false]
  refine ⟨hct, ?_, ?_, ?_, ?_, ?_⟩
  · rw [hfall]
  · rw [hfall]
  · rw [hfall]
  · rw [hfall]
  · intro rand2 now2
    rw [hfall]
    simp only [stepE, Option.isSome_some, if_true]

/-- Witness for C3 with the empty passive trace, venue OKX and symbol
BTC-USD. -/
theorem connectTimeout_fallback_witness :
    (stepConstruct initConnState true).connectionTimeout = some 15000 ∧
    (stepE Venue.OKX "BTC-USD" (runTrace Venue.OKX "BTC-USD" (stepConstruct initConnState true) [])
        (Event.timeoutFire (fun _ => 0) 0)).status = ConnectionStatus.connected ∧
    (stepE Venue.OKX "BTC-USD" (runTrace Venue.OKX "BTC-USD" (stepConstruct initConnState true) [])
        (Event.timeoutFire (fun _ => 0) 0)).orderbook
      = some (getMockOrderbookForVenue (venueName Venue.OKX) "BTC-USD" (fun _ => 0) 0) ∧
    (stepE Venue.OKX "BTC-USD" (runTrace Venue.OKX "BTC-USD" (stepConstruct initConnState true) [])
        (Event.timeoutFire (fun _ => 0) 0)).wsExists = false ∧
    (stepE Venue.OKX "BTC-USD" (runTrace Venue.OKX "BTC-USD" (stepConstruct initConnState true) [])
        (Event.timeoutFire (fun _ => 0) 0)).mockInterval = some 2000 ∧
    (∀ rand2 now2,
      (stepE Venue.OKX "BTC-USD"
          (stepE Venue.OKX "BTC-USD"
            (runTrace Venue.OKX "BTC-USD" (stepConstruct initConnState true) [])
            (Event.timeoutFire (fun _ => 0) 0))
          (Event.mockTick rand2 now2)).orderbook
        = some (getMockOrderbookForVenue (venueName Venue.OKX) "BTC-USD" rand2 now2)) :=
  connectTimeout_fallback Venue.OKX "BTC-USD" initConnState [] (fun _ => 0) 0
    (by simp)

/-- C4 (amended): when transport construction throws, `createWebSocket`'s
catch sets the status to "error" and `connectToVenue` returns at the
`if (!ws) return` guard, arming no timer and writing nothing to the store —
in particular no synthetic snapshot (the outer catch that would write one is
not reached because `createWebSocket` swallows the exception). -/
theorem constructThrow_error_no_store_write (venue : Venue) (symbol : String) (s : ConnState) :
    (stepE venue symbol s (Event.construct false)).status = ConnectionStatus.error ∧
    (stepE venue symbol s (Event.construct false)).orderbook = s.orderbook ∧
    (stepE venue symbol s (Event.construct false)).connectionTimeout = s.connectionTimeout ∧
    (stepE venue symbol s (Event.construct false)).mockInterval = s.mockInterval ∧
    (stepE venue symbol s (Event.construct false)).wsExists = false :=
  ⟨rfl, rfl, rfl, rfl, rfl⟩

/-- Counterexample to C4 as stated: from the initial state, a failed
transport construction sets status "error" but leaves the store entry `none`,
whereas the claim requires a synthetic Orderbook to be written. -/
theorem constructThrow_counterexample :
    (stepE Venue.OKX "BTC-USD" initConnState (Event.construct false)).status
      = ConnectionStatus.error ∧
    (stepE Venue.OKX "BTC-USD" initConnState (Event.construct false)).orderbook = none :=
  ⟨rfl, rfl⟩

/-- C5 (amended): the close handler sets status "disconnected" for every
close code (it never distinguishes codes when recording status), while the
transport error handler is what sets status "error"; the two outcomes
differ. -/
theorem close_disconnected_error_distinct (venue : Venue) (symbol : String)
    (s : ConnState) (code : ℕ) :
    (stepE venue symbol s (Event.closeEvt code)).status = ConnectionStatus.disconnected ∧
    (stepE venue symbol s Event.errorEvt).status = ConnectionStatus.error := by
  constructor
  · simp only [stepE]
    split <;> rfl
  · rfl

/-- A connected state with an open transport and armed heartbeat. -/
def connectedState : ConnState :=
  { initConnState with
    status := ConnectionStatus.connected
    wsExists := true
    wsOpen := true
    heartbeat := some 30000 }

/-- Counterexample to C5 as stated: after a close event with code 1006 (not
1000/1001) on a connected state, the status is "disconnected", which is not
the "error" status the claim requires. -/
theorem close_abnormal_not_error_counterexample :
    (stepE Venue.OKX "BTC-USD" connectedState (Event.closeEvt 1006)).status
      = ConnectionStatus.disconnected ∧
    ConnectionStatus.disconnected ≠ ConnectionStatus.error :=
  ⟨rfl, by decide⟩

theorem stepConstruct_reconnect (s : ConnState) (ok : Bool) :
    (stepConstruct s ok).reconnect = none := by
  cases ok <;> rfl

/-- C6: with no reconnection pending, a close event with a code other than
1000/1001 (such as 1006) fills the single reconnect slot with the 5 s delay,
a close with 1000 or 1001 leaves it empty, and the slot empties again when
it fires — one scheduled attempt per abnormal close. -/
theorem close_reconnect_schedule (venue : Venue) (symbol : String) (s : ConnState)
    (code : ℕ) (hnone : s.reconnect = none) :
    ((code ≠ 1000 ∧ code ≠ 1001) →
      (stepE venue symbol s (Event.closeEvt code)).reconnect = some 5000) ∧
    ((code = 1000 ∨ code = 1001) →
      (stepE venue symbol s (Event.closeEvt code)).reconnect = none) ∧
    (∀ ok, (stepE venue symbol (stepE venue symbol s (Event.closeEvt code))
        (Event.reconnectFire ok)).reconnect = none) := by
  refine ⟨?_, ?_, ?_⟩
  · intro hc
    simp only [stepE, if_pos hc]
  · intro hc
    have hneg : ¬ (code ≠ 1000 ∧ code ≠ 1001) := by tauto
    simp only [stepE, if_neg hneg]
    exact hnone
  · intro ok
    generalize stepE venue symbol s (Event.closeEvt code) = t
    cases hx : t.reconnect with
    | none =>
        simp only [stepE, hx, Option.isSome_none, Bool.false_eq_true, if_false]
    | some d =>
        simp only [stepE, hx, Option.isSome_some, if_true]
        exact stepConstruct_reconnect _ ok

/-- Witness for C6 from the initial state: code 1006 schedules the 5 s
reconnect, code 1000 schedules none. -/
theorem close_reconnect_schedule_witness :
    (stepE Venue.OKX "BTC-USD" initConnState (Event.closeEvt 1006)).reconnect = some 5000 ∧
    (stepE Venue.OKX "BTC-USD" initConnState (Event.closeEvt 1000)).reconnect = none :=
  ⟨(close_reconnect_schedule Venue.OKX "BTC-USD" initConnState 1006 rfl).1 (by decide),
   (close_reconnect_schedule Venue.OKX "BTC-USD" initConnState 1000 rfl).2.1 (Or.inl rfl)⟩

end OBView
